import Mathlib

/-!
# Verification of the cookie-consent audit engine (`cod`)

Shallow embedding of the consent-flow orchestrator, network request chain
builder, cookie/request classifier and provider registry of the `cod`
repository (`src/browser_manager.py`, `src/provider_registry.py`,
`src/data_collection.py`), with theorems settling the frozen claims about
its natural-language specification.

External libraries are modelled as explicit oracle parameters:
* `fld : String → Option String` models `tld.get_fld(d, fix_protocol=True)`
  (public-suffix-aware registrable-domain extraction; an exception raised by
  the library is modelled as `none`);
* `reSearch : String → String → Bool` models
  `re.search(pattern, url) is not None`;
* `extractDomain : String → String → String` models
  `BrowserManager._extract_domain_from_cookie(cookie_header, default_domain)`
  (a regex scan for a `domain=` attribute, defaulting to the second
  argument).
Fallible Python code (statements that can raise) is embedded in `Except
String`.
-/

namespace Cod

/-- Python's substring test `sub in hay` on the character list level:
`true` iff `sub` occurs contiguously inside `hay`. -/
def subOccurs (sub : List Char) : List Char → Bool
  | [] => sub.isEmpty
  | c :: rest => sub.isPrefixOf (c :: rest) || subOccurs sub rest

/-- Python's `sub in hay` for strings (no case folding; callers that
lowercase in the source lowercase here too). -/
def pyIn (sub hay : String) : Bool := subOccurs sub.data hay.data

/-- Python's `s.lstrip('.')`: drop every leading `'.'` character. -/
def lstripDot (s : String) : String :=
  ⟨s.data.dropWhile (· == '.')⟩

/-- Python's `s.lower()` (ASCII case folding suffices for the element ids
and markup involved). -/
def pyLower (s : String) : String :=
  ⟨s.data.map Char.toLower⟩

/-- Python's `s.strip()`: drop whitespace from both ends. -/
def pyStrip (s : String) : String :=
  ⟨((s.data.dropWhile Char.isWhitespace).reverse.dropWhile Char.isWhitespace).reverse⟩

/-- Split a character list at the first occurrence of `sep`: the part
before and the part after the separator, or `none` if `sep` does not
occur. -/
def breakOn (sep : List Char) : List Char → Option (List Char × List Char)
  | [] => if sep.isEmpty then some ([], []) else none
  | c :: rest =>
      if sep.isPrefixOf (c :: rest) then some ([], (c :: rest).drop sep.length)
      else
        match breakOn sep rest with
        | some pp => some (c :: pp.1, pp.2)
        | none => none

/-- Python truthiness of an optional string (`if provider_base_domain:`):
`None` and the empty string are falsy. -/
def pyTruthy : Option String → Bool
  | none => false
  | some s => !s.isEmpty

/-- `urllib.parse.urlparse(url).netloc` for `scheme://host/path`-shaped
URLs: the text between the first `"://"` and the following `"/"`.  A URL
with no `"://"` has an empty netloc, as in Python. -/
def urlNetloc (url : String) : String :=
  match breakOn "://".data url.data with
  | some pp => ⟨pp.2.takeWhile (· ≠ '/')⟩
  | none => ""

/-! ## Provider registry (`src/provider_registry.py`) -/

/-- `CookieProviderSignature` dataclass. -/
structure CookieProviderSignature where
  banner_ids : List String
  reject_button_ids : List String
  accept_button_ids : List String
  manage_button_ids : List String
  provider_name : String
  provider_base_domain : String
  deriving Repr, DecidableEq

/-- `AnalyticsProviderSignature` dataclass. -/
structure AnalyticsProviderSignature where
  provider_name : String
  container_domains : List String
  container_url_patterns : List String
  event_domains : List String
  event_url_patterns : List String
  deriving Repr, DecidableEq

/-- `TrustArcSignature()`. -/
def trustArcSignature : CookieProviderSignature :=
  { banner_ids := ["truste-consent-track", "truste-consent-button", "truste-cookie-button"]
    reject_button_ids := ["reject-all-cookies", "truste-cookie-reject", "truste-consent-required"]
    accept_button_ids := ["truste-consent-button", "truste-cookie-accept", "truste-consent-button"]
    manage_button_ids := ["truste-show-options", "truste-cookie-preferences", "truste-show-consent"]
    provider_name := "TrustArc"
    provider_base_domain := "trustarc.com" }

/-- `OneTrustSignature()`. -/
def oneTrustSignature : CookieProviderSignature :=
  { banner_ids := ["onetrust-banner-sdk", "onetrust-consent-sdk"]
    reject_button_ids := ["onetrust-reject-all-handler", "reject-all-cookies-button"]
    accept_button_ids := ["onetrust-accept-btn-handler", "accept-all-cookies-button"]
    manage_button_ids := ["onetrust-pc-btn-handler", "cookie-settings-button"]
    provider_name := "OneTrust"
    provider_base_domain := "cookielaw.org" }

/-- `UsercentricsSignature()`. -/
def usercentricsSignature : CookieProviderSignature :=
  { banner_ids := ["CybotCookiebotDialog"]
    reject_button_ids := ["CybotCookiebotDialogBodyButtonDecline"]
    accept_button_ids := ["CybotCookiebotDialogBodyLevelButtonLevelOptinAllowAll"]
    manage_button_ids := ["CybotCookiebotDialogBodyLevelButtonLevelOptinAllowallSelection"]
    provider_name := "Usercentrics/Cookiebot"
    provider_base_domain := "cookiebot.com" }

/-- `GoogleAnalyticsSignature()`.  Patterns are the raw regex source
strings; how a pattern matches a URL is the `reSearch` oracle's business. -/
def googleAnalyticsSignature : AnalyticsProviderSignature :=
  { provider_name := "Google Analytics"
    container_domains := ["google-analytics.com", "googletagmanager.com"]
    container_url_patterns :=
      ["google-analytics\\.com\\/analytics\\.js$",
       "googletagmanager\\.com\\/gtag\\/js",
       "googletagmanager\\.com\\/gtm\\.js"]
    event_domains := ["google-analytics.com", "googletagmanager.com"]
    event_url_patterns :=
      ["google-analytics\\.com\\/collect",
       "google-analytics\\.com\\/j\\/collect",
       "google-analytics\\.com\\/r\\/collect",
       "google-analytics\\.com\\/g\\/collect",
       "stats\\.g\\.doubleclick\\.net"] }

/-- `AdobeAnalyticsSignature()`. -/
def adobeAnalyticsSignature : AnalyticsProviderSignature :=
  { provider_name := "Adobe Analytics"
    container_domains := ["adobetc.com", "adobedtm.com", "omtrdc.net"]
    container_url_patterns :=
      ["assets\\.adobetc\\.com\\/.*\\.js$",
       "assets\\.adobedtm\\.com\\/.*\\.js$",
       "launch-.*\\.adobedtm\\.com.*\\.js$"]
    event_domains := ["omtrdc.net", "2o7.net", "adobedc.net"]
    event_url_patterns :=
      ["\\.112\\.2o7\\.net",
       "\\.sc\\.omtrdc\\.net\\/b\\/ss",
       "\\.demdex\\.net\\/id",
       "dpm\\.demdex\\.net"] }

/-- `ProviderRegistry`: insertion-ordered dictionaries are embedded as
association lists in registration order. -/
structure ProviderRegistry where
  providers : List (String × CookieProviderSignature)
  analytics_providers : List (String × AnalyticsProviderSignature)
  deriving Repr, DecidableEq

/-- `ProviderRegistry.__init__`. -/
def defaultRegistry : ProviderRegistry :=
  { providers :=
      [("trustarc", trustArcSignature),
       ("onetrust", oneTrustSignature),
       ("usercentrics", usercentricsSignature)]
    analytics_providers :=
      [("google_analytics", googleAnalyticsSignature),
       ("adobe_analytics", adobeAnalyticsSignature)] }

/-- Body of the loop in `ProviderRegistry.get_provider`: does any banner id
of `signature`, lowercased, occur in the (already lowercased) page
content? -/
def bannerMatch (signature : CookieProviderSignature) (page_content_lower : String) : Bool :=
  signature.banner_ids.any (fun banner_id => pyIn (pyLower banner_id) page_content_lower)

/-- `ProviderRegistry.get_provider(page_content)`: lowercase the page
content, scan providers in registration order, return the first whose
banner ids match; `None` otherwise. -/
def ProviderRegistry.get_provider (reg : ProviderRegistry) (page_content : String) :
    Option CookieProviderSignature :=
  let pc := pyLower page_content
  reg.providers.findSome? fun kv =>
    if bannerMatch kv.2 pc then some kv.2 else none

/-- Loop body of `ProviderRegistry.is_analytics_container_load` for one
analytics provider: domain in container domains, URL matches a container
pattern and no event pattern. -/
def containerLoadCheck (reSearch : String → String → Bool)
    (provider : AnalyticsProviderSignature) (url domain : String) : Bool :=
  if provider.container_domains.any (fun d => pyIn d domain) then
    (provider.container_url_patterns.any (fun p => reSearch p url)) &&
      (!(provider.event_url_patterns.any (fun p => reSearch p url)))
  else false

/-- Loop body of `ProviderRegistry.is_analytics_event` for one analytics
provider: domain in event domains and URL matches an event pattern. -/
def eventCheck (reSearch : String → String → Bool)
    (provider : AnalyticsProviderSignature) (url domain : String) : Bool :=
  if provider.event_domains.any (fun d => pyIn d domain) then
    provider.event_url_patterns.any (fun p => reSearch p url)
  else false

/-- `ProviderRegistry.is_analytics_container_load(url, domain)`: one boolean
per registered analytics provider, keyed like the source dict. -/
def ProviderRegistry.is_analytics_container_load (reg : ProviderRegistry)
    (reSearch : String → String → Bool) (url domain : String) : List (String × Bool) :=
  reg.analytics_providers.map fun kv => (kv.1, containerLoadCheck reSearch kv.2 url domain)

/-- `ProviderRegistry.is_analytics_event(url, domain)`. -/
def ProviderRegistry.is_analytics_event (reg : ProviderRegistry)
    (reSearch : String → String → Bool) (url domain : String) : List (String × Bool) :=
  reg.analytics_providers.map fun kv => (kv.1, eventCheck reSearch kv.2 url domain)

/-! ## Browser data model (`src/browser_manager.py`) -/

/-- A network request initiator descriptor (`params['initiator']`): a type
tag and the URLs of the call-stack frames (`none` for a frame dict missing
the `url` key). -/
structure Initiator where
  type : Option String
  callFrameUrls : List (Option String)
  deriving Repr, DecidableEq

/-- A cookie entry attached to a request via Set-Cookie headers
(`{'name': ..., 'domain': ..., 'type': ...}` dicts built in
`_get_network_requests`; `type` is set later by `classify_parties`). -/
structure SetCookieEntry where
  name : String
  domain : String
  type : Option String
  deriving Repr, DecidableEq

/-- `NetworkRequest` object.  The classification fields are initialized to
`None` in `__init__` and written by `classify_parties`; `Option Bool`
mirrors the `None`/`True`/`False` value space. -/
structure NetworkRequest where
  url : String
  initiator : Initiator
  timestamp : Nat
  request_id : String
  domain : String
  is_third_party : Option Bool := none
  is_first_party : Option Bool := none
  is_ccm_provider : Option Bool := none
  is_analytics_container : Option Bool := none
  analytics_provider : Option String := none
  sets_cookies : List SetCookieEntry := []
  deriving Repr, DecidableEq

/-- A cookie dict as seen by `classify_parties`: the `domain` key read with
`cookie.get('domain', '')`, and the three classification keys, absent
(`none`) until classification writes them. -/
structure Cookie where
  name : String
  domain : String
  is_ccm_provider : Option Bool := none
  is_first_party : Option Bool := none
  is_third_party : Option Bool := none
  deriving Repr, DecidableEq

/-- An analytics tag presence record (`{'type': ..., 'present': ...}`). -/
structure AnalyticsTag where
  type : String
  present : Bool
  deriving Repr, DecidableEq

/-- `BrowserState`. -/
structure BrowserState where
  cookies : List Cookie := []
  analytics_tags : List AnalyticsTag := []
  network_requests : List NetworkRequest := []
  page_domain : String := ""
  deriving Repr, DecidableEq

/-! ## Cookie/request classifier (`BrowserState.classify_parties`) -/

/-- Cookie-loop body of `classify_parties`: strip leading dots, extract the
registrable domain (`none` models the `except` branch, which fails closed
to third-party), then the first-match-wins decision order
ccm-provider / first-party / third-party.  `provider_base_domain` is
`provider.provider_base_domain if provider else None`, and the guard
`if provider_base_domain and ...` is Python truthiness. -/
def classifyCookie (fld : String → Option String) (base_domain : String)
    (provider_base_domain : Option String) (cookie : Cookie) : Cookie :=
  let cookie_domain := lstripDot cookie.domain
  match fld cookie_domain with
  | some cookie_base_domain =>
    if pyTruthy provider_base_domain && (provider_base_domain == some cookie_base_domain) then
      { cookie with is_ccm_provider := some true, is_first_party := some false,
                    is_third_party := some false }
    else if cookie_base_domain == base_domain then
      { cookie with is_ccm_provider := some false, is_first_party := some true,
                    is_third_party := some false }
    else
      { cookie with is_ccm_provider := some false, is_first_party := some false,
                    is_third_party := some true }
  | none =>
      { cookie with is_ccm_provider := some false, is_first_party := some false,
                    is_third_party := some true }

/-- Request-loop body of `classify_parties`.  In the third-party branch the
registry (obtained in the source via `getattr(provider, '_registry', None)`)
is consulted: a request matching `is_analytics_container_load` for any
analytics provider gets `is_analytics_container=True`, the first matching
provider's name, and — crucially — `is_third_party=False`.  The `except`
branch (registrable-domain extraction failure) fails closed to
third-party. -/
def classifyRequest (fld : String → Option String) (reSearch : String → String → Bool)
    (base_domain : String) (provider_base_domain : Option String)
    (provider_registry : Option ProviderRegistry) (request : NetworkRequest) : NetworkRequest :=
  match fld request.domain with
  | some request_base_domain =>
    if pyTruthy provider_base_domain && (provider_base_domain == some request_base_domain) then
      { request with is_ccm_provider := some true, is_first_party := some false,
                     is_third_party := some false, is_analytics_container := some false }
    else if request_base_domain == base_domain then
      { request with is_ccm_provider := some false, is_first_party := some true,
                     is_third_party := some false, is_analytics_container := some false }
    else
      match provider_registry with
      | some reg =>
        let container_results := reg.is_analytics_container_load reSearch request.url request.domain
        let is_container := container_results.any (fun kv => kv.2)
        let matched_name : Option String :=
          if is_container then
            container_results.findSome? fun kv =>
              if kv.2 then (List.lookup kv.1 reg.analytics_providers).map
                (fun p => p.provider_name)
              else none
          else none
        { request with
            is_ccm_provider := some false
            is_first_party := some false
            analytics_provider := match matched_name with
                                  | some n => some n
                                  | none => request.analytics_provider
            is_analytics_container := some is_container
            is_third_party := some (!is_container) }
      | none =>
        { request with is_ccm_provider := some false, is_first_party := some false,
                       is_analytics_container := some false, is_third_party := some true }
  | none =>
      { request with is_ccm_provider := some false, is_first_party := some false,
                     is_third_party := some true, is_analytics_container := some false }

/-- Third loop of `classify_parties`: type the cookies each request sets. -/
def classifySetCookie (fld : String → Option String) (base_domain : String)
    (provider_base_domain : Option String) (cookie : SetCookieEntry) : SetCookieEntry :=
  let cookie_domain := lstripDot cookie.domain
  match fld cookie_domain with
  | some cookie_base_domain =>
    if pyTruthy provider_base_domain && (provider_base_domain == some cookie_base_domain) then
      { cookie with type := some "ccm_provider" }
    else if cookie_base_domain == base_domain then
      { cookie with type := some "first_party" }
    else
      { cookie with type := some "third_party" }
  | none => { cookie with type := some "third_party" }

/-- `BrowserState.classify_parties(page_domain, provider)`.  The very first
statement, `base_domain = get_fld(page_domain, fix_protocol=True)`, is not
guarded by a `try`, so a malformed page domain raises out of the method
(`Except.error`).  `provider_registry` models
`getattr(provider, '_registry', None)` — the registry reference that
`detect_cookie_banner` attaches to a detected provider (always `none` when
`provider` is `none`). -/
def classify_parties (fld : String → Option String) (reSearch : String → String → Bool)
    (page_domain : String) (provider : Option CookieProviderSignature)
    (provider_registry : Option ProviderRegistry) (st : BrowserState) :
    Except String BrowserState :=
  match fld page_domain with
  | none => Except.error "tld failed to extract the first-level domain of the page"
  | some base_domain =>
    let provider_base_domain := provider.map (fun p => p.provider_base_domain)
    let cookies := st.cookies.map (classifyCookie fld base_domain provider_base_domain)
    let requests := st.network_requests.map
      (classifyRequest fld reSearch base_domain provider_base_domain provider_registry)
    let requests := requests.map fun r =>
      { r with sets_cookies :=
          r.sets_cookies.map (classifySetCookie fld base_domain provider_base_domain) }
    Except.ok { st with cookies := cookies, network_requests := requests,
                        page_domain := page_domain }

/-! ## Network request chain builder (`BrowserManager._get_network_requests`) -/

/-- Response headers as far as the builder looks at them: the
`'Set-Cookie'` and `'set-cookie'` keys.  A single string value is
normalized to a one-element list (the source wraps a lone string). -/
structure RespHeaders where
  setCookieUpper : Option (List String)
  setCookieLower : Option (List String)
  deriving Repr, DecidableEq

/-- A decoded performance-log entry.  `otherEvent` covers every entry whose
method is neither of the two interesting ones, and also malformed entries —
the source's per-entry `try/except` just skips them.  A
`responseReceived` whose params lack `response`/`headers` carries
`none`. -/
inductive LogEvent where
  | requestWillBeSent (requestId url : String) (initiator : Initiator) (timestamp : Nat)
  | responseReceived (requestId : String) (headers : Option RespHeaders)
  | otherEvent
  deriving Repr, DecidableEq

/-- The `NetworkRequest(...)` constructor call in the first pass. -/
def mkRecord (requestId url : String) (initiator : Initiator) (timestamp : Nat) :
    NetworkRequest :=
  { url := url, initiator := initiator, timestamp := timestamp,
    request_id := requestId, domain := urlNetloc url }

/-- First pass of `_get_network_requests`: one `NetworkRequest` appended per
`Network.requestWillBeSent` event, and the request id mapped (Python-dict
overwrite semantics: the newest binding is consed in front, and lookups
take the first hit) to the index of that record. -/
def pass1 : List LogEvent → List NetworkRequest × List (String × Nat) →
    List NetworkRequest × List (String × Nat)
  | [], acc => acc
  | (LogEvent.requestWillBeSent id url init ts) :: rest, (recs, m) =>
      pass1 rest (recs ++ [mkRecord id url init ts], (id, recs.length) :: m)
  | _ :: rest, acc => pass1 rest acc

/-- `cookie_header.split(';')[0].split('=', 1)[0].strip()`: the text up to
the first `';'`, then up to the first `'='`, stripped. -/
def cookieNameOf (cookie_header : String) : String :=
  pyStrip ⟨(cookie_header.data.takeWhile (· ≠ ';')).takeWhile (· ≠ '=')⟩

/-- The Set-Cookie parsing block of the second pass: gather the headers
under both capitalizations and parse each into a `{name, domain, type}`
dict (`type` filled in later by `classify_parties`). -/
def parseSetCookies (extractDomain : String → String → String) (hs : RespHeaders)
    (default_domain : String) : List SetCookieEntry :=
  let cookie_headers := (hs.setCookieUpper.getD []) ++ (hs.setCookieLower.getD [])
  cookie_headers.map fun h =>
    { name := cookieNameOf h, domain := extractDomain h default_domain, type := none }

/-- Second pass of `_get_network_requests`: for every
`Network.responseReceived` whose request id is in the map and whose params
carry response headers, overwrite `sets_cookies` of the mapped record (the
map points at the record object itself; here, at its index). -/
def pass2 (extractDomain : String → String → String) :
    List LogEvent → List NetworkRequest → List (String × Nat) → List NetworkRequest
  | [], recs, _ => recs
  | (LogEvent.responseReceived id headers) :: rest, recs, m =>
      match List.lookup id m with
      | some idx =>
        match headers with
        | some hs =>
          match recs.get? idx with
          | some r =>
              pass2 extractDomain rest
                (recs.set idx { r with sets_cookies := parseSetCookies extractDomain hs r.domain }) m
          | none => pass2 extractDomain rest recs m
        | none => pass2 extractDomain rest recs m
      | none => pass2 extractDomain rest recs m
  | _ :: rest, recs, m => pass2 extractDomain rest recs m

/-- `BrowserManager._get_network_requests` for one call on a fresh browser
(empty `network_logs` and `request_cookie_map` beforehand, as after
`setup_browser`/`visit_url`): both passes run over the same log list. -/
def get_network_requests (extractDomain : String → String → String)
    (logs : List LogEvent) : List NetworkRequest :=
  let p := pass1 logs ([], [])
  pass2 extractDomain logs p.1 p.2

/-- The records the first pass creates, one per request-initiated event, in
log order (characterization helper for `pass1`). -/
def mkRecords : List LogEvent → List NetworkRequest
  | [] => []
  | (LogEvent.requestWillBeSent id url init ts) :: rest => mkRecord id url init ts :: mkRecords rest
  | _ :: rest => mkRecords rest

/-- The id-to-index map the first pass builds, newest binding first,
indices counted from `n` (characterization helper for `pass1`). -/
def mkMap : List LogEvent → Nat → List (String × Nat)
  | [], _ => []
  | (LogEvent.requestWillBeSent id _ _ _) :: rest, n => mkMap rest (n + 1) ++ [(id, n)]
  | _ :: rest, n => mkMap rest n

/-- Index (counted from `n`) of the last request-initiated event bearing a
given id. -/
def lastReqIdx : List LogEvent → Nat → String → Option Nat
  | [], _, _ => none
  | (LogEvent.requestWillBeSent id' _ _ _) :: rest, n, id =>
      match lastReqIdx rest (n + 1) id with
      | some k => some k
      | none => if id == id' then some n else none
  | _ :: rest, n, id => lastReqIdx rest n id

/-- Net effect of the second pass on the one record a request id maps to:
every response-received event with that id and with headers overwrites the
cookie list, so the last one wins. -/
def cookiesAfter (extractDomain : String → String → String) (id dom : String) :
    List LogEvent → List SetCookieEntry → List SetCookieEntry
  | [], acc => acc
  | (LogEvent.responseReceived id' (some hs)) :: rest, acc =>
      if id' == id then cookiesAfter extractDomain id dom rest (parseSetCookies extractDomain hs dom)
      else cookiesAfter extractDomain id dom rest acc
  | _ :: rest, acc => cookiesAfter extractDomain id dom rest acc

/-! ## Data collection service (`src/data_collection.py`) -/

/-- `URLResult` fields the service reads (`src/url_processor.py`). -/
structure URLResult where
  requested_url : String
  destination_url : String
  status_code : Option Nat
  domain : String
  deriving Repr, DecidableEq

/-- A request dict as `_create_network_state` would shape it.  The
`is_analytics_library` slot is typed `Option Bool` because nothing ever
supplies a value for it — see `create_network_state`. -/
structure RequestDict where
  url : String
  initiator : Initiator
  timestamp : Nat
  request_id : String
  is_third_party : Option Bool
  is_first_party : Option Bool
  is_ccm_provider : Option Bool
  is_analytics_library : Option Bool
  analytics_provider : Option String
  domain : String
  deriving Repr, DecidableEq

/-- A reconstructed request-chain edge dict. -/
structure ChainDict where
  source : String
  target : String
  timestamp : Nat
  type : String
  is_analytics_library : Option Bool
  analytics_provider : Option String
  deriving Repr, DecidableEq

/-- `NetworkState` dataclass. -/
structure NetworkState where
  requests : List RequestDict
  analytics_tags : List AnalyticsTag
  request_chains : List ChainDict
  deriving Repr, DecidableEq

/-- `ConsentAction` dataclass. -/
structure ConsentAction where
  action_performed : Bool
  action_successful : Bool
  button_found : Bool
  error : Option String
  timestamp : Option Nat
  deriving Repr, DecidableEq

/-- A stored clickable element: the value data kept by the service
(`text`, `href`, `opens_new_tab`); the live Selenium element handle is a
browser-side resource and is not modelled. -/
structure ClickableElement where
  text : String
  href : String
  opens_new_tab : Bool
  deriving Repr, DecidableEq

/-- One entry of `perform_interaction_sequence`'s result list; the service
stores these verbatim. -/
structure InteractionResult where
  element_text : String
  href : String
  opens_new_tab : Bool
  before_click_url : String
  success : Bool
  landed_on_url : Option String
  interaction_type : String
  error : Option String
  deriving Repr, DecidableEq

/-- `InteractionState` dataclass. -/
structure InteractionState where
  consent : ConsentAction
  clickable_elements : List ClickableElement
  interactions : List InteractionResult
  network_state : NetworkState
  cookies : List Cookie
  timestamp : Option Nat
  deriving Repr, DecidableEq

/-- The `"state"` dict written into `page_landing` by
`_capture_pre_consent_state`. -/
structure LandingState where
  cookies : List Cookie
  network_state : NetworkState
  analytics_tags : List AnalyticsTag
  clickable_elements : List ClickableElement
  deriving Repr, DecidableEq

/-- The `page_landing` dict: both keys exist from initialization on, with
value `None` until the capture succeeds. -/
structure PageLanding where
  state : Option LandingState
  timestamp : Option Nat
  deriving Repr, DecidableEq

/-- The `url_info` dict of a result. -/
structure UrlInfo where
  requested_url : String
  final_url : String
  status_code : Option Nat
  domain : String
  initial_accessibility : Bool
  deriving Repr, DecidableEq

/-- The `ccm_detection` dict of a result. -/
structure CcmDetection where
  banner_found : Bool
  provider_name : String
  accessibility_with_banner : Option Bool
  can_scroll : Option Bool
  accessibility_issues : List String
  deriving Repr, DecidableEq

/-- `ConsentCheckResult` dataclass (the spec's AuditResult). -/
structure ConsentCheckResult where
  url_info : UrlInfo
  ccm_detection : CcmDetection
  page_landing : PageLanding
  accept_flow : InteractionState
  reject_flow : InteractionState
  errors : List String
  deriving Repr, DecidableEq

/-- `NetworkState(requests=[], analytics_tags=[], request_chains=[])`. -/
def emptyNetworkState : NetworkState :=
  { requests := [], analytics_tags := [], request_chains := [] }

/-- The all-false/`None` `ConsentAction` used at initialization. -/
def emptyConsentAction : ConsentAction :=
  { action_performed := false, action_successful := false, button_found := false,
    error := none, timestamp := none }

/-- The empty-initialized `InteractionState` of `_initialize_result`. -/
def emptyInteractionState : InteractionState :=
  { consent := emptyConsentAction, clickable_elements := [], interactions := [],
    network_state := emptyNetworkState, cookies := [], timestamp := none }

/-- `DataCollectionService._initialize_result`. -/
def initialize_result (url_result : URLResult) : ConsentCheckResult :=
  { url_info :=
      { requested_url := url_result.requested_url, final_url := url_result.destination_url,
        status_code := url_result.status_code, domain := url_result.domain,
        initial_accessibility := true }
    ccm_detection :=
      { banner_found := false, provider_name := "", accessibility_with_banner := none,
        can_scroll := none, accessibility_issues := [] }
    page_landing := { state := none, timestamp := none }
    accept_flow := emptyInteractionState
    reject_flow := emptyInteractionState
    errors := [] }

/-- `DataCollectionService._create_network_state`.  The requests
comprehension reads `req.is_analytics_library` — an attribute
`NetworkRequest.__init__` never defines (it defines
`is_analytics_container`), so processing any request raises
`AttributeError`; the method returns normally only when the browser state
holds no network requests, in which case both the comprehension and the
chains loop are vacuous. -/
def create_network_state (browser_state : BrowserState) : Except String NetworkState :=
  match browser_state.network_requests with
  | [] => Except.ok { requests := [], analytics_tags := browser_state.analytics_tags,
                      request_chains := [] }
  | _ :: _ => Except.error
      "AttributeError: NetworkRequest object has no attribute is_analytics_library"

/-- `BrowserManager.check_site_accessibility` result fields the service
reads. -/
structure AccessibilityResults where
  is_accessible : Bool
  can_scroll : Bool
  issues : List String
  deriving Repr, DecidableEq

/-- `BrowserManager.click_consent_button` result dict. -/
structure ConsentStatusD where
  success : Bool
  button_found : Bool
  error : Option String
  deriving Repr, DecidableEq

/-- The outcomes the external browser capability would produce during one
`create_result` run: the oracle inputs of the orchestrator embedding.
`detected` doubles as `self.browser.current_provider` (set by
`_capture_pre_consent_state` before anything reads it).  `now` stands for
the `time.time()` readings. -/
structure BrowserRun where
  visitOk : Bool
  detected : Option CookieProviderSignature
  pageState : BrowserState
  clickables : List ClickableElement
  accessibility : AccessibilityResults
  acceptClick : ConsentStatusD
  acceptInteractions : List InteractionResult
  acceptState : BrowserState
  revisitOk : Bool
  rejectClick : ConsentStatusD
  rejectInteractions : List InteractionResult
  rejectState : BrowserState
  now : Nat
  deriving Repr, DecidableEq

/-- `DataCollectionService._capture_pre_consent_state`.  Returns (success,
mutated result, service error list, `self.stored_elements`).  Mutations
made before the point of failure persist, as they do on the Python object.
The only statement inside the `try` that can raise in this model is
`self._create_network_state(initial_state)` inside the `page_landing`
update (the browser calls all catch internally); its `AttributeError` is
caught by the method's own `except`, recorded, and turned into a `False`
return.  On the success path the source returns `bool(initial_state)`,
which is always `True` for a plain Python object. -/
def capture_pre_consent_state (run : BrowserRun) (url_result : URLResult)
    (result : ConsentCheckResult) (errors : List String) :
    Bool × ConsentCheckResult × List String × List ClickableElement :=
  if !run.visitOk then
    (false, result, errors ++ ["Failed to visit URL: " ++ url_result.destination_url], [])
  else
    let provider := run.detected
    let initial_state := run.pageState
    let clickable_elements := run.clickables
    let result := { result with ccm_detection :=
      { result.ccm_detection with
          banner_found := provider.isSome,
          provider_name := match provider with
                           | some p => p.provider_name
                           | none => "" } }
    let resErr : ConsentCheckResult × List String :=
      match provider with
      | some _ =>
        let acc := run.accessibility
        let result := { result with ccm_detection :=
          { result.ccm_detection with
              accessibility_with_banner := some acc.is_accessible,
              can_scroll := some acc.can_scroll,
              accessibility_issues := acc.issues } }
        (result, if !acc.is_accessible then errors ++ acc.issues else errors)
      | none => (result, errors)
    let result := resErr.1
    let errors := resErr.2
    match create_network_state initial_state with
    | Except.error e =>
        (false, result, errors ++ ["Error in pre-consent capture: " ++ e], clickable_elements)
    | Except.ok ns =>
        let result := { result with page_landing :=
          { state := some { cookies := initial_state.cookies, network_state := ns,
                            analytics_tags := initial_state.analytics_tags,
                            clickable_elements := clickable_elements },
            timestamp := some run.now } }
        (true, result, errors, clickable_elements)

/-- `DataCollectionService._capture_post_consent_state` for one branch.
`flow.consent` is assigned first; the interactions only replayed when the
click succeeded and stored elements exist; then the final state capture —
whose `_create_network_state` call raises `AttributeError` whenever the
final state holds any request — either completes the flow record or is
caught by the branch's `except`, leaving the flow partially updated. -/
def capture_post_consent_state (action : String) (click : ConsentStatusD)
    (interactions : List InteractionResult) (stored : List ClickableElement)
    (final_state : BrowserState) (flow : InteractionState) (t : Nat) :
    InteractionState × List String :=
  let flow := { flow with consent :=
    { action_performed := true, action_successful := click.success,
      button_found := click.button_found, error := click.error, timestamp := some t } }
  let flow := if click.success && !stored.isEmpty then { flow with interactions := interactions }
              else flow
  match create_network_state final_state with
  | Except.ok ns =>
      ({ flow with network_state := ns, cookies := final_state.cookies, timestamp := some t }, [])
  | Except.error e => (flow, ["Error in " ++ action ++ " flow: " ++ e])

/-- `DataCollectionService.create_result`.  `errors0` is the service's
`self.errors` on entry ( `[]` for a fresh service); the second component of
the result is `self.errors` on exit.  When the pre-consent capture reports
failure the function returns the partially initialized result **before**
the `result.errors = self.errors` assignment, so the returned result keeps
its empty error list. -/
def create_result (run : BrowserRun) (url_result : URLResult) (errors0 : List String) :
    ConsentCheckResult × List String :=
  let result := initialize_result url_result
  let pre := capture_pre_consent_state run url_result result errors0
  let ok := pre.1
  let result := pre.2.1
  let errors := pre.2.2.1
  let stored := pre.2.2.2
  if !ok then (result, errors)
  else
    match run.detected with
    | some provider =>
      let accPair := capture_post_consent_state "accept" run.acceptClick run.acceptInteractions
        stored run.acceptState result.accept_flow run.now
      let result := { result with accept_flow := accPair.1 }
      let errors := errors ++ accPair.2
      let _ := provider
      let resErr : ConsentCheckResult × List String :=
        if run.revisitOk then
          let rejPair := capture_post_consent_state "reject" run.rejectClick
            run.rejectInteractions stored run.rejectState result.reject_flow run.now
          ({ result with reject_flow := rejPair.1 }, errors ++ rejPair.2)
        else (result, errors)
      ({ resErr.1 with errors := resErr.2 }, resErr.2)
    | none => ({ result with errors := errors }, errors)

/-! ## Result analyzer (`generate_cod_results`, `get_flag_metadata`) -/

/-- Python truthiness of `not x` for an optional boolean
(`not None = True`). -/
def pyNot : Option Bool → Bool
  | none => true
  | some b => !b

/-- The metadata record `get_flag_metadata` returns.  `value` echoes the
input, which can be `None` (the source passes `can_scroll` through
unchecked), hence `Option Bool`. -/
structure FlagMeta where
  value : Option Bool
  interpretation : String
  meaning : String
  outlook : String
  deriving Repr, DecidableEq

/-- One entry of the `interpretations` table in `get_flag_metadata`. -/
structure FlagInfo where
  interpretation : String
  stage : String
  meaningTrue : String
  outlookTrue : String
  meaningFalse : String
  outlookFalse : String
  deriving Repr, DecidableEq

/-- The static `interpretations` dict of `get_flag_metadata`.  (The source
spells the first interpretation with an apostrophe in `shouldn't`;
rendered here as `should not`, which no claim inspects.) -/
def interpretationsTable : String → Option FlagInfo
  | "PAGE_NOT_INTERACTABLE" => some
      { interpretation := "Users should not be allowed to interact with page at pre-consent stage"
        stage := "pre-consent"
        meaningTrue := "Users cannot interact with page before consent", outlookTrue := "Positive"
        meaningFalse := "Users can interact with page before consent", outlookFalse := "Negative" }
  | "PAGE_SCROLLABLE" => some
      { interpretation := "Page scrolling improves user experience while maintaining compliance"
        stage := "pre-consent"
        meaningTrue := "Users can scroll the page, providing better UX", outlookTrue := "Positive"
        meaningFalse := "Page scrolling is blocked", outlookFalse := "Neutral" }
  | "FIRST_PARTY_COOKIES" => some
      { interpretation := "First party cookies are often essential for functionality. Individual cookies need to be verified to ensure compliance"
        stage := "both"
        meaningTrue := "First party cookies present - individual verification needed"
        outlookTrue := "Neutral"
        meaningFalse := "No first party cookies - minimal privacy impact"
        outlookFalse := "Positive" }
  | "CCM_PROVIDER_COOKIES" => some
      { interpretation := "Cookies are sometimes used by provider for CCM functionality"
        stage := "both"
        meaningTrue := "CMP cookies present and may be used for functionality"
        outlookTrue := "Positive"
        meaningFalse := "No CMP cookies - provider may use alternative methods"
        outlookFalse := "Positive" }
  | "NO_THIRD_PARTY_COOKIES" => some
      { interpretation := "Third party cookies should not be present without consent"
        stage := "both"
        meaningTrue := "No third party cookies detected", outlookTrue := "Positive"
        meaningFalse := "Third party cookies found", outlookFalse := "Negative" }
  | "FIRST_PARTY_REQUESTS" => some
      { interpretation := "First party script requests are typically needed for site functionality. Individual requests need to be checked to ensure compliance"
        stage := "both"
        meaningTrue := "First party script requests present - individual verification needed"
        outlookTrue := "Neutral"
        meaningFalse := "No first party script requests - minimal privacy impact"
        outlookFalse := "Positive" }
  | "CCM_PROVIDER_REQUESTS" => some
      { interpretation := "Script requests are expected for CCM functionality"
        stage := "both"
        meaningTrue := "CMP script requests present as expected", outlookTrue := "Positive"
        meaningFalse := "No CMP script requests - provider may use alternative methods"
        outlookFalse := "Positive" }
  | "NO_THIRD_PARTY_REQUESTS" => some
      { interpretation := "Third party script requests should not occur without consent"
        stage := "both"
        meaningTrue := "No third party script requests detected", outlookTrue := "Positive"
        meaningFalse := "Third party script requests found", outlookFalse := "Negative" }
  | "ANALYTICS_LIBRARY_LOADS" => some
      { interpretation := "Analytics library loads are acceptable"
        stage := "both"
        meaningTrue := "Analytics libraries or containers load through Javascript script execution. The loading event alone does not create a compliance problem."
        outlookTrue := "Positive"
        meaningFalse := "No analytics library loads detected", outlookFalse := "Neutral" }
  | _ => none

/-- `DataCollectionService.get_flag_metadata`.  The final branch indexes
the per-flag dict with `value` (`flag_info[value]`): a `None` value is not
a key of that dict, so it raises `KeyError` — reachable, since the
`PAGE_SCROLLABLE` call site passes `ccm_detection["can_scroll"]`, which is
`None` whenever no banner was found. -/
def get_flag_metadata (flag_name : String) (value : Option Bool) (stage : String) :
    Except String FlagMeta :=
  match interpretationsTable flag_name with
  | none => Except.ok
      { value := value, interpretation := "No interpretation available",
        meaning := "Unknown flag", outlook := "Unknown" }
  | some flag_info =>
    if flag_info.stage != "both" && flag_info.stage != stage then
      Except.ok
        { value := value,
          interpretation := "Flag not applicable in " ++ stage ++ " stage",
          meaning := "Stage mismatch", outlook := "Not Applicable" }
    else
      match value with
      | none => Except.error "KeyError: None"
      | some b => Except.ok
          { value := some b, interpretation := flag_info.interpretation,
            meaning := if b then flag_info.meaningTrue else flag_info.meaningFalse,
            outlook := if b then flag_info.outlookTrue else flag_info.outlookFalse }

/-- The per-phase analysis dict built by `_analyze_cookies_and_requests`. -/
structure PhaseAnalysis where
  firstPartyCookies : FlagMeta
  ccmProviderCookies : FlagMeta
  noThirdPartyCookies : FlagMeta
  firstPartyRequests : FlagMeta
  ccmProviderRequests : FlagMeta
  noThirdPartyRequests : FlagMeta
  analyticsLibraryLoads : FlagMeta
  networkChains : Option (List ChainDict)
  deriving Repr, DecidableEq

/-- Inner function `_analyze_cookies_and_requests` of
`generate_cod_results`: classify by the flag keys (`dict.get(key, False)`,
so an absent or `None` flag counts as `False`) and roll up to booleans. -/
def analyze_cookies_and_requests (include_network_chains : Bool)
    (state_cookies : List Cookie) (state_network : NetworkState) (stage : String) :
    Except String PhaseAnalysis := do
  let first_party_cookies := state_cookies.filter fun c => c.is_first_party.getD false
  let third_party_cookies := state_cookies.filter fun c => c.is_third_party.getD false
  let ccm_provider_cookies := state_cookies.filter fun c => c.is_ccm_provider.getD false
  let first_party_requests := state_network.requests.filter fun r => r.is_first_party.getD false
  let third_party_requests := state_network.requests.filter fun r => r.is_third_party.getD false
  let ccm_provider_requests := state_network.requests.filter fun r => r.is_ccm_provider.getD false
  let analytics_library_loads := state_network.requests.filter fun r =>
    r.is_analytics_library.getD false
  let fpc ← get_flag_metadata "FIRST_PARTY_COOKIES"
    (some (decide (first_party_cookies.length > 0))) stage
  let cpc ← get_flag_metadata "CCM_PROVIDER_COOKIES"
    (some (decide (ccm_provider_cookies.length > 0))) stage
  let ntpc ← get_flag_metadata "NO_THIRD_PARTY_COOKIES"
    (some (decide (third_party_cookies.length = 0))) stage
  let fpr ← get_flag_metadata "FIRST_PARTY_REQUESTS"
    (some (decide (first_party_requests.length > 0))) stage
  let cpr ← get_flag_metadata "CCM_PROVIDER_REQUESTS"
    (some (decide (ccm_provider_requests.length > 0))) stage
  let ntpr ← get_flag_metadata "NO_THIRD_PARTY_REQUESTS"
    (some (decide (third_party_requests.length = 0))) stage
  let all ← get_flag_metadata "ANALYTICS_LIBRARY_LOADS"
    (some (decide (analytics_library_loads.length > 0))) stage
  pure
    { firstPartyCookies := fpc, ccmProviderCookies := cpc, noThirdPartyCookies := ntpc,
      firstPartyRequests := fpr, ccmProviderRequests := cpr, noThirdPartyRequests := ntpr,
      analyticsLibraryLoads := all,
      networkChains := if include_network_chains then some state_network.request_chains else none }

/-- The `ccm_banner` section of the analysis. -/
structure BannerInfo where
  banner_found : Bool
  provider_name : String
  deriving Repr, DecidableEq

/-- The `url_info` section of the analysis. -/
structure UrlInfoOut where
  requested_url : String
  final_url : String
  status_code : Option Nat
  domain : String
  deriving Repr, DecidableEq

/-- The final analysis object of `generate_cod_results`. -/
structure Analysis where
  url_info : UrlInfoOut
  ccm_banner : BannerInfo
  pageNotInteractable : FlagMeta
  pageScrollable : FlagMeta
  preConsent : PhaseAnalysis
  onAccept : PhaseAnalysis
  onReject : PhaseAnalysis
  deriving Repr, DecidableEq

/-- `DataCollectionService.generate_cod_results`.  The first statement,
`result.page_landing.get('state', {})`, finds the `'state'` key (it exists
from initialization on) and returns its value — `None` until a pre-consent
capture succeeded — so the `{}` default never applies and the following
`pre_consent_state.get('cookies', [])` raises `AttributeError` on a `None`
state.  The reject analysis is invoked with stage `"post_consent"`
(underscore), as in the source. -/
def generate_cod_results (svc_result : ConsentCheckResult)
    (include_network_chains : Bool) : Except String Analysis := do
  match svc_result.page_landing.state with
  | none => Except.error "AttributeError: NoneType object has no attribute get"
  | some pre_consent_state =>
    let pre ← analyze_cookies_and_requests include_network_chains
      pre_consent_state.cookies pre_consent_state.network_state "pre-consent"
    let acc ← analyze_cookies_and_requests include_network_chains
      svc_result.accept_flow.cookies svc_result.accept_flow.network_state "post-consent"
    let rej ← analyze_cookies_and_requests include_network_chains
      svc_result.reject_flow.cookies svc_result.reject_flow.network_state "post_consent"
    let pni ← get_flag_metadata "PAGE_NOT_INTERACTABLE"
      (some (pyNot svc_result.ccm_detection.accessibility_with_banner)) "pre-consent"
    let ps ← get_flag_metadata "PAGE_SCROLLABLE"
      svc_result.ccm_detection.can_scroll "pre-consent"
    pure
      { url_info :=
          { requested_url := svc_result.url_info.requested_url,
            final_url := svc_result.url_info.final_url,
            status_code := svc_result.url_info.status_code,
            domain := svc_result.url_info.domain }
        ccm_banner :=
          { banner_found := svc_result.ccm_detection.banner_found,
            provider_name := svc_result.ccm_detection.provider_name }
        pageNotInteractable := pni
        pageScrollable := ps
        preConsent := pre
        onAccept := acc
        onReject := rej }

/-! ## Concrete oracles and demo inputs for witnesses and counterexamples -/

/-- A concrete registrable-domain oracle standing in for `tld.get_fld`:
defined on the handful of domains the demo inputs use, failing (`none`,
i.e. raising) elsewhere. -/
def fldDemo : String → Option String := fun d =>
  if d == "example.com" || d == "www.example.com" then some "example.com"
  else if d == "googletagmanager.com" || d == "www.googletagmanager.com" then
    some "googletagmanager.com"
  else if d == "cookielaw.org" || d == "cdn.cookielaw.org" then some "cookielaw.org"
  else none

/-- The URL of end-to-end scenario C: a Google Tag Manager container
load. -/
def gtmUrl : String := "https://www.googletagmanager.com/gtm.js?id=GTM-1"

/-- A concrete regex oracle standing in for `re.search`: the GTM container
pattern matches `gtmUrl`, every other (pattern, url) pair misses. -/
def reDemo : String → String → Bool := fun p url =>
  p == "googletagmanager\\.com\\/gtm\\.js" && url == gtmUrl

/-- A regex oracle under which exactly Google Analytics' container
patterns match (any URL): used to discharge the hypotheses of the
container/event mutual-exclusion theorem. -/
def reContainerOnly : String → String → Bool := fun p _ =>
  googleAnalyticsSignature.container_url_patterns.contains p

/-- A concrete cookie-domain extraction oracle standing in for
`_extract_domain_from_cookie`: the demo cookie headers carry no `domain=`
attribute, so the default (the request's domain) is always returned. -/
def edDemo : String → String → String := fun _ default_domain => default_domain

/-- A script-type initiator with no call frames. -/
def scriptInit : Initiator := { type := some "script", callFrameUrls := [] }

/-- The network request of scenario C, as built by the chain builder. -/
def gtmRequest : NetworkRequest :=
  { url := gtmUrl, initiator := scriptInit, timestamp := 1, request_id := "req-1",
    domain := urlNetloc gtmUrl }

/-- A browser state holding just the GTM container request. -/
def demoContainerState : BrowserState := { network_requests := [gtmRequest] }

/-- A demo URL prechecker result. -/
def demoUrlResult : URLResult :=
  { requested_url := "https://example.com", destination_url := "https://example.com/",
    status_code := some 200, domain := "example.com" }

/-- An all-quiet consent-click outcome. -/
def idleClick : ConsentStatusD := { success := false, button_found := false, error := none }

/-- A run that visits successfully, records no cookies or requests, and
finds no banner. -/
def noBannerRun : BrowserRun :=
  { visitOk := true, detected := none, pageState := {}, clickables := []
    accessibility := { is_accessible := false, can_scroll := false, issues := [] }
    acceptClick := idleClick, acceptInteractions := [], acceptState := {}
    revisitOk := false, rejectClick := idleClick, rejectInteractions := [], rejectState := {}
    now := 7 }

/-- A performance log with two request-initiated events sharing request id
`"1"` and one response that sets a cookie for it. -/
def dupLogs : List LogEvent :=
  [LogEvent.requestWillBeSent "1" "https://a.example/x" scriptInit 1,
   LogEvent.requestWillBeSent "1" "https://b.example/y" scriptInit 2,
   LogEvent.responseReceived "1"
     (some { setCookieUpper := some ["sid=abc; Path=/"], setCookieLower := none })]

/-- A request dict shaped the way `_create_network_state` would shape the
classified GTM request, had its comprehension not raised: in particular
there is no value anywhere for `is_analytics_library` (classification sets
`is_analytics_container`), modelled as `none`. -/
def gtmRequestDict : RequestDict :=
  { url := gtmUrl, initiator := scriptInit, timestamp := 1, request_id := "req-1",
    is_third_party := some false, is_first_party := some false, is_ccm_provider := some false,
    is_analytics_library := none, analytics_provider := some "Google Analytics",
    domain := urlNetloc gtmUrl }

/-- A network state carrying just that request dict. -/
def gtmNetworkState : NetworkState :=
  { requests := [gtmRequestDict], analytics_tags := [], request_chains := [] }

/-- Does exactly one of the three party flags hold the value `True`? -/
def exactlyOneFlag (ccm fp tp : Option Bool) : Bool :=
  ((if ccm == some true then 1 else 0) + (if fp == some true then 1 else 0) +
    (if tp == some true then 1 else 0) : Nat) == 1

/-- A record with its cookie list cleared: the identity-only view of a
`NetworkRequest`. -/
def stripCk (r : NetworkRequest) : NetworkRequest := { r with sets_cookies := [] }

/-- The party-flag triple of a classified cookie, in the order
(ccm_provider, first_party, third_party). -/
def cookieFlags (c : Cookie) : Option Bool × Option Bool × Option Bool :=
  (c.is_ccm_provider, c.is_first_party, c.is_third_party)

/-- The party-flag triple of a classified request. -/
def reqFlags (r : NetworkRequest) : Option Bool × Option Bool × Option Bool :=
  (r.is_ccm_provider, r.is_first_party, r.is_third_party)

/-- The classification outcome a request can legally have: if it is
flagged as an analytics container then all three party flags are `False`,
and in every other case exactly one party flag is `True`. -/
def requestFlagsOk (r : NetworkRequest) : Prop :=
  (r.is_analytics_container = some true →
     r.is_ccm_provider = some false ∧ r.is_first_party = some false ∧
       r.is_third_party = some false) ∧
  (r.is_analytics_container ≠ some true →
     exactlyOneFlag r.is_ccm_provider r.is_first_party r.is_third_party = true)

/-- The GTM request as `classify_parties` leaves it on a
`www.example.com` page with a OneTrust provider. -/
def gtmClassified : NetworkRequest :=
  { gtmRequest with is_ccm_provider := some false, is_first_party := some false,
                    is_third_party := some false, is_analytics_container := some true,
                    analytics_provider := some "Google Analytics" }

end Cod

namespace Cod

/-! ## Theorems settling the claims -/

/-- Helper: a Python-truthy provider base domain. -/
theorem pyTruthy_of_ne (s : String) (h : s ≠ "") : pyTruthy (some s) = true := by
  have hf : s.isEmpty = false := by
    cases he : s.isEmpty
    · rfl
    · exact absurd ((String.isEmpty_iff s).mp he) h
  simp [pyTruthy, hf]

/-- C5.  The Result Analyzer is *not* total: on a result whose pre-consent
phase was never captured (e.g. after a navigation failure), the
initialized `page_landing` holds the key `'state'` with value `None`, so
`result.page_landing.get('state', {})` returns `None` (the `{}` default
never fires) and `pre_consent_state.get('cookies', [])` raises
`AttributeError`.  Evaluation of the failing input. -/
theorem C5_analyzer_raises_on_empty_result :
    generate_cod_results (initialize_result demoUrlResult) true =
      Except.error "AttributeError: NoneType object has no attribute get" := by
  rfl

/-- C4.  A GTM container request is classified
`is_analytics_container=True` with provider name `"Google Analytics"` and
`is_third_party=False` (hence excluded from the plain third-party
roll-up), but the roll-up flags cannot reflect it: `_create_network_state`
raises `AttributeError` on any request (reading the nonexistent
`is_analytics_library` attribute), and even on a hand-shaped request dict
the `analyticsLibraryLoads` flag keys on `is_analytics_library`, which
classification never sets, so it stays `False` while
`noThirdPartyRequests` stays `True`. -/
theorem C4_container_load_rollup :
    (classify_parties fldDemo reDemo "www.example.com" (some oneTrustSignature)
        (some defaultRegistry) demoContainerState).toOption.map
      (fun st => st.network_requests.map fun r =>
        (r.is_analytics_container, r.analytics_provider, r.is_third_party)) =
      some [(some true, some "Google Analytics", some false)] ∧
    create_network_state demoContainerState =
      Except.error "AttributeError: NetworkRequest object has no attribute is_analytics_library" ∧
    (analyze_cookies_and_requests true [] gtmNetworkState "pre-consent").toOption.map
      (fun pa => (pa.analyticsLibraryLoads.value, pa.noThirdPartyRequests.value)) =
      some (some false, some true) := by
  exact ⟨rfl, rfl, rfl⟩

/-- C1 counterexample.  The claim asserts exactly one of
{first_party, third_party, ccm_provider} is true for *every* classified
request, analytics containers included (with third_party as their terminal
class).  On the GTM container request the code sets all three party flags
`False` (`is_third_party=False` is exactly how the roll-up exclusion is
implemented), so no flag at all is true. -/
theorem C1_counterexample :
    (classify_parties fldDemo reDemo "www.example.com" (some oneTrustSignature)
        (some defaultRegistry) demoContainerState).toOption.map
      (fun st => st.network_requests.map fun r =>
        (r.is_analytics_container,
         exactlyOneFlag r.is_ccm_provider r.is_first_party r.is_third_party)) =
      some [(some true, false)] := by
  rfl

/-- Helper: every classified cookie carries exactly one `True` party
flag. -/
theorem classifyCookie_exactlyOne (fld : String → Option String) (base : String)
    (pbd : Option String) (c : Cookie) :
    exactlyOneFlag (classifyCookie fld base pbd c).is_ccm_provider
      (classifyCookie fld base pbd c).is_first_party
      (classifyCookie fld base pbd c).is_third_party = true := by
  cases h : fld (lstripDot c.domain) with
  | none => simp [classifyCookie, h, exactlyOneFlag]
  | some cbd =>
    simp only [classifyCookie, h]
    split
    · rfl
    · split <;> rfl

/-- Helper: every classified request is either a container with all party
flags `False`, or carries exactly one `True` party flag. -/
theorem classifyRequest_flagsOk (fld : String → Option String)
    (reSearch : String → String → Bool) (base : String) (pbd : Option String)
    (reg : Option ProviderRegistry) (r : NetworkRequest) :
    requestFlagsOk (classifyRequest fld reSearch base pbd reg r) := by
  unfold requestFlagsOk
  cases h : fld r.domain with
  | none =>
    simp only [classifyRequest, h]
    exact ⟨fun hcontra => absurd hcontra (by simp), fun _ => rfl⟩
  | some rbd =>
    simp only [classifyRequest, h]
    split
    · exact ⟨fun hcontra => absurd hcontra (by simp), fun _ => rfl⟩
    · split
      · exact ⟨fun hcontra => absurd hcontra (by simp), fun _ => rfl⟩
      · cases hreg : reg with
        | none => exact ⟨fun hcontra => absurd hcontra (by simp), fun _ => rfl⟩
        | some registry =>
          dsimp only
          cases hc : (registry.is_analytics_container_load reSearch r.url r.domain).any
              (fun kv => kv.2) with
          | true => exact ⟨fun _ => ⟨rfl, rfl, rfl⟩, fun hne => absurd rfl hne⟩
          | false => exact ⟨fun hcontra => absurd hcontra (by simp), fun _ => rfl⟩

/-- C1 amended.  After classification, every cookie has exactly one `True`
flag among {ccm_provider, first_party, third_party}; every request
likewise, *except* analytics-container requests, for which all three party
flags are `False` and the orthogonal `is_analytics_container` flag is
`True`. -/
theorem C1_amended_mutual_exclusion (fld : String → Option String)
    (reSearch : String → String → Bool) (page_domain : String)
    (provider : Option CookieProviderSignature) (reg : Option ProviderRegistry)
    (st out : BrowserState)
    (hok : classify_parties fld reSearch page_domain provider reg st = Except.ok out) :
    (∀ c ∈ out.cookies,
        exactlyOneFlag c.is_ccm_provider c.is_first_party c.is_third_party = true) ∧
    (∀ r ∈ out.network_requests, requestFlagsOk r) := by
  cases h : fld page_domain with
  | none => simp [classify_parties, h] at hok
  | some base =>
    simp only [classify_parties, h, Except.ok.injEq] at hok
    subst hok
    constructor
    · intro c hc
      simp only [List.mem_map] at hc
      obtain ⟨c0, _, rfl⟩ := hc
      exact classifyCookie_exactlyOne fld base (provider.map fun p => p.provider_base_domain) c0
    · intro r hr
      simp only [List.mem_map] at hr
      obtain ⟨r1, hr1, rfl⟩ := hr
      obtain ⟨r0, _, rfl⟩ := hr1
      exact classifyRequest_flagsOk fld reSearch base
        (provider.map fun p => p.provider_base_domain) reg r0

/-- C1 amended, witnessed on the classified GTM container request of the
demo page state. -/
theorem C1_amended_witness : requestFlagsOk gtmClassified :=
  (C1_amended_mutual_exclusion fldDemo reDemo "www.example.com" (some oneTrustSignature)
      (some defaultRegistry) demoContainerState
      { demoContainerState with network_requests := [gtmClassified],
                                page_domain := "www.example.com" }
      (by rfl)).2 gtmClassified (by simp)

/-- Helper: mutual exclusion of the per-provider container-load and event
checks. -/
theorem containerLoad_not_event (reSearch : String → String → Bool)
    (p : AnalyticsProviderSignature) (url domain : String)
    (h : containerLoadCheck reSearch p url domain = true) :
    eventCheck reSearch p url domain = false := by
  unfold containerLoadCheck at h
  unfold eventCheck
  split at h
  · rw [Bool.and_eq_true] at h
    have h2 := h.2
    rw [Bool.not_eq_true'] at h2
    split
    · exact h2
    · rfl
  · exact absurd h (by simp)

/-- Helper: the mutual exclusion lifted over the registry's provider
list. -/
theorem lookup_map_mutex (reSearch : String → String → Bool) (url domain k : String) :
    ∀ l : List (String × AnalyticsProviderSignature),
      List.lookup k (l.map fun kv => (kv.1, containerLoadCheck reSearch kv.2 url domain)) =
        some true →
      List.lookup k (l.map fun kv => (kv.1, eventCheck reSearch kv.2 url domain)) =
        some false := by
  intro l
  induction l with
  | nil => intro h; simp [List.lookup] at h
  | cons kv rest ih =>
    intro h
    simp only [List.map_cons, List.lookup] at h ⊢
    cases hk : (k == kv.1) with
    | true =>
      simp only [hk] at h ⊢
      exact congrArg some (containerLoad_not_event reSearch kv.2 url domain
        (Option.some.inj h))
    | false =>
      simp only [hk] at h ⊢
      exact ih h

/-- C8.  For every regex oracle, registry, URL, domain and provider key:
if `is_analytics_container_load` reports `True` for that provider, then
`is_analytics_event` reports `False` for it — a URL is never both a
container load and an event for the same provider. -/
theorem C8_container_event_mutual_exclusion (reSearch : String → String → Bool)
    (reg : ProviderRegistry) (url domain k : String)
    (h : List.lookup k (reg.is_analytics_container_load reSearch url domain) = some true) :
    List.lookup k (reg.is_analytics_event reSearch url domain) = some false := by
  cases reg with
  | mk provs aprovs =>
    exact lookup_map_mutex reSearch url domain k aprovs h

/-- C8 witness: a concrete oracle under which Google Analytics' container
check fires, and the event check is then `False`. -/
theorem C8_witness :
    List.lookup "google_analytics"
        (defaultRegistry.is_analytics_container_load reContainerOnly "u"
          "www.googletagmanager.com") = some true ∧
    List.lookup "google_analytics"
        (defaultRegistry.is_analytics_event reContainerOnly "u"
          "www.googletagmanager.com") = some false :=
  ⟨by rfl,
   C8_container_event_mutual_exclusion reContainerOnly defaultRegistry "u"
     "www.googletagmanager.com" "google_analytics" (by rfl)⟩

/-- C10.  Provider identification scans the registry in its fixed
registration order — TrustArc, OneTrust, Usercentrics — and returns the
first provider one of whose banner ids occurs (case-insensitively) in the
page markup; `None` exactly when no banner id of any registered provider
occurs. -/
theorem C10_get_provider_priority (content : String) :
    defaultRegistry.get_provider content =
      (if bannerMatch trustArcSignature (pyLower content) then some trustArcSignature
       else if bannerMatch oneTrustSignature (pyLower content) then some oneTrustSignature
       else if bannerMatch usercentricsSignature (pyLower content) then
         some usercentricsSignature
       else none) := by
  by_cases h1 : bannerMatch trustArcSignature (pyLower content) = true
  · simp [ProviderRegistry.get_provider, defaultRegistry, List.findSome?, h1]
  · by_cases h2 : bannerMatch oneTrustSignature (pyLower content) = true
    · simp [ProviderRegistry.get_provider, defaultRegistry, List.findSome?, h1, h2]
    · by_cases h3 : bannerMatch usercentricsSignature (pyLower content) = true
      · simp [ProviderRegistry.get_provider, defaultRegistry, List.findSome?, h1, h2, h3]
      · simp [ProviderRegistry.get_provider, defaultRegistry, List.findSome?, h1, h2, h3]

/-- C6.  The classifier's first-match-wins decision order, for cookies and
requests whose registrable domain extracts successfully: a subject whose
base domain equals the detected provider's base domain is classified
ccm_provider — even when that base domain also equals the page's base
domain; otherwise a subject whose base domain equals the page's base
domain is first_party; otherwise the subject lands in the third_party
terminal class (not ccm, not first; `is_third_party` is `True` there
unless the request carries the orthogonal analytics-container sub-flag,
which is then `True`). -/
theorem C6_decision_order (fld : String → Option String)
    (reSearch : String → String → Bool) (base : String)
    (provider : CookieProviderSignature) (reg : Option ProviderRegistry)
    (c : Cookie) (cbd : String) (r : NetworkRequest) (rbd : String)
    (hpbd : provider.provider_base_domain ≠ "")
    (hc : fld (lstripDot c.domain) = some cbd)
    (hr : fld r.domain = some rbd) :
    (cbd = provider.provider_base_domain →
      cookieFlags (classifyCookie fld base (some provider.provider_base_domain) c) =
        (some true, some false, some false)) ∧
    (cbd ≠ provider.provider_base_domain → cbd = base →
      cookieFlags (classifyCookie fld base (some provider.provider_base_domain) c) =
        (some false, some true, some false)) ∧
    (cbd ≠ provider.provider_base_domain → cbd ≠ base →
      cookieFlags (classifyCookie fld base (some provider.provider_base_domain) c) =
        (some false, some false, some true)) ∧
    (rbd = provider.provider_base_domain →
      reqFlags (classifyRequest fld reSearch base (some provider.provider_base_domain) reg r) =
        (some true, some false, some false)) ∧
    (rbd ≠ provider.provider_base_domain → rbd = base →
      reqFlags (classifyRequest fld reSearch base (some provider.provider_base_domain) reg r) =
        (some false, some true, some false)) ∧
    (rbd ≠ provider.provider_base_domain → rbd ≠ base →
      (classifyRequest fld reSearch base (some provider.provider_base_domain) reg r).is_ccm_provider
          = some false ∧
      (classifyRequest fld reSearch base (some provider.provider_base_domain) reg r).is_first_party
          = some false ∧
      ((classifyRequest fld reSearch base (some provider.provider_base_domain) reg
          r).is_third_party = some true ∨
       (classifyRequest fld reSearch base (some provider.provider_base_domain) reg
          r).is_analytics_container = some true)) := by
  have hTr := pyTruthy_of_ne provider.provider_base_domain hpbd
  refine ⟨?_, ?_, ?_, ?_, ?_, ?_⟩
  · intro hEq
    subst hEq
    simp [classifyCookie, hc, cookieFlags, hTr]
  · intro hNe hEq
    subst hEq
    simp only [classifyCookie, hc]
    split
    · next hcond =>
      rw [Bool.and_eq_true, beq_iff_eq] at hcond
      exact absurd (Option.some.inj hcond.2).symm hNe
    · split
      · rfl
      · next h2 => exact absurd (by simp) h2
  · intro hNe hNeBase
    simp only [classifyCookie, hc]
    split
    · next hcond =>
      rw [Bool.and_eq_true, beq_iff_eq] at hcond
      exact absurd (Option.some.inj hcond.2).symm hNe
    · split
      · next h2 => exact absurd (by rwa [beq_iff_eq] at h2) hNeBase
      · rfl
  · intro hEq
    subst hEq
    simp [classifyRequest, hr, reqFlags, hTr]
  · intro hNe hEq
    subst hEq
    simp only [classifyRequest, hr]
    split
    · next hcond =>
      rw [Bool.and_eq_true, beq_iff_eq] at hcond
      exact absurd (Option.some.inj hcond.2).symm hNe
    · split
      · rfl
      · next h2 => exact absurd (by simp) h2
  · intro hNe hNeBase
    simp only [classifyRequest, hr]
    split
    · next hcond =>
      rw [Bool.and_eq_true, beq_iff_eq] at hcond
      exact absurd (Option.some.inj hcond.2).symm hNe
    · split
      · next h2 => exact absurd (by rwa [beq_iff_eq] at h2) hNeBase
      · cases reg with
        | none => exact ⟨rfl, rfl, Or.inl rfl⟩
        | some registry =>
          dsimp only
          cases hany : (registry.is_analytics_container_load reSearch r.url r.domain).any
              (fun kv => kv.2) with
          | true => exact ⟨rfl, rfl, Or.inr (by simp [hany])⟩
          | false => exact ⟨rfl, rfl, Or.inl (by simp [hany])⟩

/-- C6 witness: a OneTrust cookie, and a request on `cdn.cookielaw.org`
from a page on `www.example.com`, both classified ccm_provider. -/
theorem C6_witness :
    cookieFlags (classifyCookie fldDemo "example.com" (some "cookielaw.org")
        { name := "OptanonConsent", domain := ".cookielaw.org" }) =
      (some true, some false, some false) ∧
    reqFlags (classifyRequest fldDemo reDemo "example.com" (some "cookielaw.org")
        (some defaultRegistry)
        { url := "https://cdn.cookielaw.org/consent/v2.js", initiator := scriptInit,
          timestamp := 3, request_id := "req-2", domain := "cdn.cookielaw.org" }) =
      (some true, some false, some false) :=
  ⟨(C6_decision_order fldDemo reDemo "example.com" oneTrustSignature (some defaultRegistry)
      { name := "OptanonConsent", domain := ".cookielaw.org" } "cookielaw.org"
      { url := "https://cdn.cookielaw.org/consent/v2.js", initiator := scriptInit,
        timestamp := 3, request_id := "req-2", domain := "cdn.cookielaw.org" } "cookielaw.org"
      (by decide) (by rfl) (by rfl)).1 rfl,
   (C6_decision_order fldDemo reDemo "example.com" oneTrustSignature (some defaultRegistry)
      { name := "OptanonConsent", domain := ".cookielaw.org" } "cookielaw.org"
      { url := "https://cdn.cookielaw.org/consent/v2.js", initiator := scriptInit,
        timestamp := 3, request_id := "req-2", domain := "cdn.cookielaw.org" } "cookielaw.org"
      (by decide) (by rfl) (by rfl)).2.2.2.1 rfl⟩

/-- C9.  Malformed domains fail closed: a cookie or request whose domain
the registrable-domain extractor rejects is classified third-party with
the other flags `False` (and no analytics-container flag), and
`classify_parties` itself returns normally (no exception escapes) whenever
the page domain parses. -/
theorem C9_fail_closed (fld : String → Option String)
    (reSearch : String → String → Bool) (base : String) (pbd : Option String)
    (reg : Option ProviderRegistry) (c : Cookie) (r : NetworkRequest)
    (page_domain : String) (provider : Option CookieProviderSignature)
    (st : BrowserState)
    (hcFail : fld (lstripDot c.domain) = none)
    (hrFail : fld r.domain = none)
    (hpage : fld page_domain ≠ none) :
    cookieFlags (classifyCookie fld base pbd c) = (some false, some false, some true) ∧
    reqFlags (classifyRequest fld reSearch base pbd reg r) =
      (some false, some false, some true) ∧
    (classifyRequest fld reSearch base pbd reg r).is_analytics_container = some false ∧
    ∃ out, classify_parties fld reSearch page_domain provider reg st = Except.ok out := by
  refine ⟨by simp [classifyCookie, hcFail, cookieFlags],
          by simp [classifyRequest, hrFail, reqFlags],
          by simp [classifyRequest, hrFail], ?_⟩
  cases hp : fld page_domain with
  | none => exact absurd hp hpage
  | some base2 =>
    simp only [classify_parties, hp]
    exact ⟨_, rfl⟩

/-- C9 witness: a cookie and a request with unparsable domain `"???"` on a
parsable page. -/
theorem C9_witness :
    cookieFlags (classifyCookie fldDemo "example.com" (some "cookielaw.org")
        { name := "junk", domain := "???" }) = (some false, some false, some true) ∧
    reqFlags (classifyRequest fldDemo reDemo "example.com" (some "cookielaw.org")
        (some defaultRegistry)
        { url := "not-a-url", initiator := scriptInit, timestamp := 4,
          request_id := "req-3", domain := "" }) = (some false, some false, some true) := by
  have h := C9_fail_closed fldDemo reDemo "example.com" (some "cookielaw.org")
    (some defaultRegistry) { name := "junk", domain := "???" }
    { url := "not-a-url", initiator := scriptInit, timestamp := 4,
      request_id := "req-3", domain := "" }
    "example.com" (some oneTrustSignature) {} (by rfl) (by rfl) (by simp [fldDemo])
  exact ⟨h.1, h.2.1⟩

/-- Helper: when the pre-consent capture reports success, the landing
state is populated, the two consent-flow records and the result's error
list are untouched, and `banner_found` reflects the detection outcome. -/
theorem capture_pre_success (run : BrowserRun) (url : URLResult)
    (res : ConsentCheckResult) (errs : List String)
    (h : (capture_pre_consent_state run url res errs).1 = true) :
    (capture_pre_consent_state run url res errs).2.1.page_landing.state.isSome = true ∧
    (capture_pre_consent_state run url res errs).2.1.accept_flow = res.accept_flow ∧
    (capture_pre_consent_state run url res errs).2.1.reject_flow = res.reject_flow ∧
    (capture_pre_consent_state run url res errs).2.1.ccm_detection.banner_found =
      run.detected.isSome := by
  unfold capture_pre_consent_state at h ⊢
  dsimp only at h ⊢
  cases hv : run.visitOk with
  | false => simp [hv] at h
  | true =>
    cases hd : run.detected with
    | none =>
      cases hcn : create_network_state run.pageState with
      | error e => simp [hv, hd, hcn] at h
      | ok ns => exact ⟨rfl, rfl, rfl, rfl⟩
    | some p =>
      cases hcn : create_network_state run.pageState with
      | error e => simp [hv, hd, hcn] at h
      | ok ns => exact ⟨rfl, rfl, rfl, rfl⟩

/-- C7.  If the pre-consent capture succeeds and banner detection finds no
provider, both consent branches are skipped (the accept and reject flows
stay in their empty-initialized state), while the pre-consent landing
state is populated and `banner_found` is `False`. -/
theorem C7_no_banner_skips_branches (run : BrowserRun) (url : URLResult)
    (errors0 : List String)
    (hcap : (capture_pre_consent_state run url (initialize_result url) errors0).1 = true)
    (hnone : run.detected = none) :
    (create_result run url errors0).1.accept_flow = emptyInteractionState ∧
    (create_result run url errors0).1.reject_flow = emptyInteractionState ∧
    (create_result run url errors0).1.page_landing.state.isSome = true ∧
    (create_result run url errors0).1.ccm_detection.banner_found = false := by
  have hs := capture_pre_success run url (initialize_result url) errors0 hcap
  rw [hnone] at hs
  unfold create_result
  dsimp only
  rw [hcap, hnone]
  exact ⟨hs.2.1, hs.2.2.1, hs.1, hs.2.2.2⟩

/-- C7 witness: a successful quiet visit with no banner found. -/
theorem C7_witness :
    (create_result noBannerRun demoUrlResult []).1.accept_flow = emptyInteractionState ∧
    (create_result noBannerRun demoUrlResult []).1.reject_flow = emptyInteractionState ∧
    (create_result noBannerRun demoUrlResult []).1.page_landing.state.isSome = true ∧
    (create_result noBannerRun demoUrlResult []).1.ccm_detection.banner_found = false :=
  C7_no_banner_skips_branches noBannerRun demoUrlResult [] (by rfl) rfl

/-- C3 counterexample.  On a log with two request-initiated events sharing
request id `"1"`, the builder emits *two* records (duplicates), and the
response's Set-Cookie header lands on the record of the *second*
(last) initiated event, not the first — the id map was overwritten. -/
theorem C3_counterexample :
    (get_network_requests edDemo dupLogs).map
      (fun r => (r.request_id, r.url, r.sets_cookies.map fun sc => sc.name)) =
      [("1", "https://a.example/x", []), ("1", "https://b.example/y", ["sid"])] := by
  rfl

/-- Helper: `pass1` appends one record per initiated event and prepends
the id-map entries, newest first. -/
theorem pass1_characterization :
    ∀ (logs : List LogEvent) (recs : List NetworkRequest) (m : List (String × Nat)),
      pass1 logs (recs, m) = (recs ++ mkRecords logs, mkMap logs recs.length ++ m) := by
  intro logs
  induction logs with
  | nil => intro recs m; simp [pass1, mkRecords, mkMap]
  | cons e rest ih =>
    intro recs m
    cases e with
    | requestWillBeSent id url init ts =>
      simp only [pass1, mkRecords, mkMap]
      rw [ih]
      simp [List.append_assoc]
    | responseReceived id hdo => simp only [pass1, mkRecords, mkMap]; exact ih recs m
    | otherEvent => simp only [pass1, mkRecords, mkMap]; exact ih recs m

/-- Helper: association lookup across a snoc. -/
theorem lookup_snoc (k id2 : String) (n : Nat) :
    ∀ l : List (String × Nat),
      List.lookup k (l ++ [(id2, n)]) =
        (match List.lookup k l with
         | some v => some v
         | none => if k == id2 then some n else none) := by
  intro l
  induction l with
  | nil =>
    cases hk : k == id2 <;> simp [List.lookup, hk]
  | cons p rest ih =>
    obtain ⟨pk, pv⟩ := p
    cases hk : k == pk <;> simp [List.lookup, hk, ih]

/-- Helper: looking a request id up in the map `pass1` built finds the
index of the *last* initiated event bearing that id. -/
theorem lookup_mkMap (k : String) :
    ∀ (logs : List LogEvent) (n : Nat),
      List.lookup k (mkMap logs n) = lastReqIdx logs n k := by
  intro logs
  induction logs with
  | nil => intro n; simp [mkMap, lastReqIdx, List.lookup]
  | cons e rest ih =>
    intro n
    cases e with
    | requestWillBeSent id url init ts =>
      simp only [mkMap, lastReqIdx]
      rw [lookup_snoc, ih]
    | responseReceived id hdo => simp only [mkMap, lastReqIdx]; exact ih n
    | otherEvent => simp only [mkMap, lastReqIdx]; exact ih n

/-- Helper: the index `lastReqIdx` returns addresses a record bearing
exactly that request id. -/
theorem lastReqIdx_record (k : String) :
    ∀ (logs : List LogEvent) (n idx : Nat),
      lastReqIdx logs n k = some idx →
      n ≤ idx ∧ ∃ r, (mkRecords logs).get? (idx - n) = some r ∧ r.request_id = k := by
  intro logs
  induction logs with
  | nil => intro n idx h; simp [lastReqIdx] at h
  | cons e rest ih =>
    intro n idx h
    cases e with
    | requestWillBeSent id url init ts =>
      simp only [lastReqIdx] at h
      cases hrest : lastReqIdx rest (n + 1) k with
      | some j =>
        rw [hrest] at h
        have hj : j = idx := Option.some.inj h
        obtain ⟨hle, r, hr, hid⟩ := ih (n + 1) j hrest
        refine ⟨by omega, r, ?_, hid⟩
        simp only [mkRecords]
        have hstep : idx - n = (j - (n + 1)) + 1 := by omega
        rw [hstep]
        simpa using hr
      | none =>
        rw [hrest] at h
        cases hk : k == id with
        | true =>
          rw [hk] at h
          simp only [if_true] at h
          have hn : n = idx := Option.some.inj h
          refine ⟨by omega, mkRecord id url init ts, ?_, (eq_of_beq hk).symm⟩
          have hz : idx - n = 0 := by omega
          rw [hz]
          simp [mkRecords]
        | false => rw [hk] at h; simp at h
    | responseReceived id hdo =>
      simp only [lastReqIdx, mkRecords] at h ⊢
      exact ih n idx h
    | otherEvent =>
      simp only [lastReqIdx, mkRecords] at h ⊢
      exact ih n idx h

/-- Helper: when `lastReqIdx` finds nothing, no record bears that id. -/
theorem lastReqIdx_none (k : String) :
    ∀ (logs : List LogEvent) (n : Nat),
      lastReqIdx logs n k = none →
      ∀ j r, (mkRecords logs).get? j = some r → r.request_id ≠ k := by
  intro logs
  induction logs with
  | nil => intro n h j r hget; simp [mkRecords] at hget
  | cons e rest ih =>
    intro n h j r hget
    cases e with
    | requestWillBeSent id url init ts =>
      simp only [lastReqIdx] at h
      cases hrest : lastReqIdx rest (n + 1) k with
      | some j2 => rw [hrest] at h; simp at h
      | none =>
        rw [hrest] at h
        cases hk : k == id with
        | true => rw [hk] at h; simp at h
        | false =>
          simp only [mkRecords] at hget
          cases j with
          | zero =>
            obtain rfl : mkRecord id url init ts = r := Option.some.inj hget
            intro hcontra
            rw [show (mkRecord id url init ts).request_id = id from rfl] at hcontra
            rw [hcontra] at hk
            simp at hk
          | succ j2 => exact ih (n + 1) hrest j2 r (by simpa using hget)
    | responseReceived id hdo =>
      simp only [lastReqIdx] at h
      simp only [mkRecords] at hget
      exact ih n h j r hget
    | otherEvent =>
      simp only [lastReqIdx] at h
      simp only [mkRecords] at hget
      exact ih n h j r hget

/-- Helper: `lastReqIdx` is indeed maximal — every record bearing the id
sits at an index no greater than the one returned. -/
theorem lastReqIdx_is_last (k : String) :
    ∀ (logs : List LogEvent) (n idx : Nat),
      lastReqIdx logs n k = some idx →
      ∀ j r, (mkRecords logs).get? j = some r → r.request_id = k → n + j ≤ idx := by
  intro logs
  induction logs with
  | nil => intro n idx h; simp [lastReqIdx] at h
  | cons e rest ih =>
    intro n idx h j r hget hid
    cases e with
    | requestWillBeSent id url init ts =>
      simp only [lastReqIdx] at h
      simp only [mkRecords] at hget
      cases hrest : lastReqIdx rest (n + 1) k with
      | some m2 =>
        rw [hrest] at h
        have hm : m2 = idx := Option.some.inj h
        cases j with
        | zero =>
          have := (lastReqIdx_record k rest (n + 1) m2 hrest).1
          omega
        | succ j2 =>
          have := ih (n + 1) m2 hrest j2 r (by simpa using hget) hid
          omega
      | none =>
        rw [hrest] at h
        cases hk : k == id with
        | true =>
          rw [hk] at h
          simp only [if_true] at h
          have hn : n = idx := Option.some.inj h
          cases j with
          | zero => omega
          | succ j2 =>
            exact absurd hid (lastReqIdx_none k rest (n + 1) hrest j2 r (by simpa using hget))
        | false => rw [hk] at h; simp at h
    | responseReceived id hdo =>
      simp only [lastReqIdx] at h
      simp only [mkRecords] at hget
      exact ih n idx h j r hget hid
    | otherEvent =>
      simp only [lastReqIdx] at h
      simp only [mkRecords] at hget
      exact ih n idx h j r hget hid

/-- Helper: overwriting only the cookie list of a record leaves the
identity view of the list unchanged. -/
theorem map_stripCk_set :
    ∀ (recs : List NetworkRequest) (idx : Nat) (r : NetworkRequest)
      (x : List SetCookieEntry),
      recs.get? idx = some r →
      (recs.set idx { r with sets_cookies := x }).map stripCk = recs.map stripCk := by
  intro recs
  induction recs with
  | nil => intro idx r x h; simp at h
  | cons a rest ih =>
    intro idx r x h
    cases idx with
    | zero =>
      obtain rfl : a = r := Option.some.inj h
      simp [List.set, stripCk]
    | succ idx2 =>
      simp only [List.set, List.map_cons]
      rw [ih idx2 r x (by simpa using h)]

/-- Helper: the second pass never changes a record's identity fields. -/
theorem pass2_map_stripCk (ed : String → String → String) :
    ∀ (logs : List LogEvent) (recs : List NetworkRequest) (m : List (String × Nat)),
      (pass2 ed logs recs m).map stripCk = recs.map stripCk := by
  intro logs
  induction logs with
  | nil => intro recs m; simp [pass2]
  | cons e rest ih =>
    intro recs m
    cases e with
    | requestWillBeSent id url init ts => simp only [pass2]; exact ih recs m
    | otherEvent => simp only [pass2]; exact ih recs m
    | responseReceived id hdo =>
      simp only [pass2]
      cases hl : List.lookup id m with
      | none => dsimp only; exact ih recs m
      | some idx =>
        cases hdo with
        | none => dsimp only; exact ih recs m
        | some hdrs =>
          dsimp only
          cases hg : recs.get? idx with
          | none => dsimp only; exact ih recs m
          | some r =>
            dsimp only
            rw [ih (recs.set idx { r with
              sets_cookies := parseSetCookies ed hdrs r.domain }) m]
            exact map_stripCk_set recs idx r _ hg

/-- Helper: a record whose index no response's map entry addresses comes
out of the second pass exactly as the first pass left it. -/
theorem pass2_untouched (ed : String → String → String) :
    ∀ (logs : List LogEvent) (recs : List NetworkRequest) (m : List (String × Nat)) (i : Nat),
      (∀ id hdo, LogEvent.responseReceived id hdo ∈ logs → List.lookup id m ≠ some i) →
      (pass2 ed logs recs m).get? i = recs.get? i := by
  intro logs
  induction logs with
  | nil => intro recs m i hno; simp [pass2]
  | cons e rest ih =>
    intro recs m i hno
    cases e with
    | requestWillBeSent id url init ts =>
      simp only [pass2]
      exact ih recs m i fun id2 hdo hmem => hno id2 hdo (List.mem_cons_of_mem _ hmem)
    | otherEvent =>
      simp only [pass2]
      exact ih recs m i fun id2 hdo hmem => hno id2 hdo (List.mem_cons_of_mem _ hmem)
    | responseReceived id hdo =>
      simp only [pass2]
      have hni := hno id hdo (List.mem_cons_self _ _)
      have hrest := fun id2 hdo2 hmem => hno id2 hdo2 (List.mem_cons_of_mem _ hmem)
      cases hl : List.lookup id m with
      | none => dsimp only; exact ih recs m i hrest
      | some idx =>
        have hne : idx ≠ i := fun he => hni (he ▸ hl)
        cases hdo with
        | none => dsimp only; exact ih recs m i hrest
        | some hdrs =>
          dsimp only
          cases hg : recs.get? idx with
          | none => dsimp only; exact ih recs m i hrest
          | some r =>
            dsimp only
            rw [ih (recs.set idx { r with
              sets_cookies := parseSetCookies ed hdrs r.domain }) m i hrest]
            exact List.get?_set_ne _ _ hne

/-- Helper: the record the map points at accumulates, response by
response, exactly the `cookiesAfter` overwrite chain. -/
theorem pass2_target (ed : String → String → String) :
    ∀ (logs : List LogEvent) (recs : List NetworkRequest) (m : List (String × Nat))
      (k : String) (idx : Nat) (r : NetworkRequest),
      List.lookup k m = some idx →
      (∀ k2, List.lookup k2 m = some idx → k2 = k) →
      recs.get? idx = some r →
      (pass2 ed logs recs m).get? idx =
        some { r with sets_cookies := cookiesAfter ed k r.domain logs r.sets_cookies } := by
  intro logs
  induction logs with
  | nil =>
    intro recs m k idx r hk huniq hget
    simpa [pass2, cookiesAfter] using hget
  | cons e rest ih =>
    intro recs m k idx r hk huniq hget
    cases e with
    | requestWillBeSent id url init ts =>
      simp only [pass2, cookiesAfter]
      exact ih recs m k idx r hk huniq hget
    | otherEvent =>
      simp only [pass2, cookiesAfter]
      exact ih recs m k idx r hk huniq hget
    | responseReceived id hdo =>
      cases hdo with
      | none =>
        simp only [pass2, cookiesAfter]
        cases hl : List.lookup id m with
        | none => dsimp only; exact ih recs m k idx r hk huniq hget
        | some idx2 => dsimp only; exact ih recs m k idx r hk huniq hget
      | some hdrs =>
        simp only [pass2, cookiesAfter]
        cases hl : List.lookup id m with
        | none =>
          have hne : (id == k) = false := by
            rw [beq_eq_false_iff_ne]
            intro he
            rw [he, hk] at hl
            exact Option.noConfusion hl
          rw [hne]
          simp only [Bool.false_eq_true, if_false]
          exact ih recs m k idx r hk huniq hget
        | some idx2 =>
          by_cases hii : idx2 = idx
          · subst hii
            have hkid : id = k := huniq id hl
            subst hkid
            dsimp only
            rw [hget]
            have htrue : (id == id) = true := by simp
            rw [htrue]
            simp only [if_true]
            have hget2 : (recs.set idx2 { r with
                sets_cookies := parseSetCookies ed hdrs r.domain }).get? idx2 =
                some { r with sets_cookies := parseSetCookies ed hdrs r.domain } := by
              have hi : idx2 < recs.length := (List.get?_eq_some.mp hget).1
              exact List.get?_set_eq_of_lt _ hi
            exact ih _ m id idx2 _ hk huniq hget2
          · have hne : (id == k) = false := by
              rw [beq_eq_false_iff_ne]
              intro he
              rw [he, hk] at hl
              exact hii (Option.some.inj hl).symm
            dsimp only
            rw [hne]
            simp only [Bool.false_eq_true, if_false]
            cases hg : recs.get? idx2 with
            | none => dsimp only; exact ih recs m k idx r hk huniq hget
            | some r2 =>
              dsimp only
              have hget2 : (recs.set idx2 { r2 with
                  sets_cookies := parseSetCookies ed hdrs r2.domain }).get? idx = some r := by
                rw [List.get?_set_ne _ _ hii]
                exact hget
              exact ih _ m k idx r hk huniq hget2

/-- Helper: every record the first pass creates has an empty cookie
list. -/
theorem mkRecords_sets_cookies :
    ∀ (logs : List LogEvent) (j : Nat) (r : NetworkRequest),
      (mkRecords logs).get? j = some r → r.sets_cookies = [] := by
  intro logs
  induction logs with
  | nil => intro j r h; simp [mkRecords] at h
  | cons e rest ih =>
    intro j r h
    cases e with
    | requestWillBeSent id url init ts =>
      simp only [mkRecords] at h
      cases j with
      | zero =>
        obtain rfl : mkRecord id url init ts = r := Option.some.inj h
        rfl
      | succ j2 => exact ih j2 r (by simpa using h)
    | responseReceived id hdo => simp only [mkRecords] at h; exact ih j r h
    | otherEvent => simp only [mkRecords] at h; exact ih j r h

/-- Helper: the identity view of `mkRecords` is itself. -/
theorem mkRecords_map_stripCk :
    ∀ logs : List LogEvent, (mkRecords logs).map stripCk = mkRecords logs := by
  intro logs
  induction logs with
  | nil => rfl
  | cons e rest ih =>
    cases e with
    | requestWillBeSent id url init ts => simp only [mkRecords, List.map_cons, ih]; rfl
    | responseReceived id hdo => simp only [mkRecords]; exact ih
    | otherEvent => simp only [mkRecords]; exact ih

/-- C3 amended.  The builder emits one record per request-initiated event,
in log order, each taking its identity from its own event — so duplicate
request ids yield duplicate records.  Set-Cookie headers from the
responses bearing an id attach only to the record of the *last* initiated
event with that id, each matching response (with headers) overwriting that
record's cookie list in turn (`cookiesAfter`: last response wins); records
of earlier duplicate events keep their empty cookie list. -/
theorem C3_amended_builder (ed : String → String → String) (logs : List LogEvent)
    (recs : List NetworkRequest) (hrecs : recs = get_network_requests ed logs) :
    recs.map stripCk = mkRecords logs ∧
    (∀ k idx, lastReqIdx logs 0 k = some idx →
       ∃ r0, (mkRecords logs).get? idx = some r0 ∧
         recs.get? idx = some { r0 with sets_cookies := cookiesAfter ed k r0.domain logs [] }) ∧
    (∀ i r, recs.get? i = some r → lastReqIdx logs 0 r.request_id ≠ some i →
       r.sets_cookies = []) := by
  have hpass1 := pass1_characterization logs [] []
  simp only [List.nil_append, List.append_nil, List.length_nil] at hpass1
  have hrecs2 : recs = pass2 ed logs (mkRecords logs) (mkMap logs 0) := by
    rw [hrecs]
    unfold get_network_requests
    rw [hpass1]
  subst hrecs2
  refine ⟨?_, ?_, ?_⟩
  · rw [pass2_map_stripCk, mkRecords_map_stripCk]
  · intro k idx hlast
    have hlk : List.lookup k (mkMap logs 0) = some idx := by
      rw [lookup_mkMap]; exact hlast
    obtain ⟨-, r0, hr0, hid0⟩ := lastReqIdx_record k logs 0 idx hlast
    rw [Nat.sub_zero] at hr0
    have huniq : ∀ k2, List.lookup k2 (mkMap logs 0) = some idx → k2 = k := by
      intro k2 hk2
      rw [lookup_mkMap] at hk2
      obtain ⟨-, r2, hr2, hid2⟩ := lastReqIdx_record k2 logs 0 idx hk2
      rw [Nat.sub_zero] at hr2
      rw [hr0] at hr2
      obtain rfl : r0 = r2 := Option.some.inj hr2
      rw [← hid2, hid0]
    have hsc0 : r0.sets_cookies = [] := mkRecords_sets_cookies logs idx r0 hr0
    refine ⟨r0, hr0, ?_⟩
    have := pass2_target ed logs (mkRecords logs) (mkMap logs 0) k idx r0 hlk huniq hr0
    rw [hsc0] at this
    exact this
  · intro i r hget hne
    by_cases hex : ∃ k, List.lookup k (mkMap logs 0) = some i
    · obtain ⟨k, hk⟩ := hex
      have hlast : lastReqIdx logs 0 k = some i := by rw [← lookup_mkMap]; exact hk
      obtain ⟨-, r0, hr0, hid0⟩ := lastReqIdx_record k logs 0 i hlast
      rw [Nat.sub_zero] at hr0
      have huniq : ∀ k2, List.lookup k2 (mkMap logs 0) = some i → k2 = k := by
        intro k2 hk2
        rw [lookup_mkMap] at hk2
        obtain ⟨-, r2, hr2, hid2⟩ := lastReqIdx_record k2 logs 0 i hk2
        rw [Nat.sub_zero] at hr2
        rw [hr0] at hr2
        obtain rfl : r0 = r2 := Option.some.inj hr2
        rw [← hid2, hid0]
      have hfin := pass2_target ed logs (mkRecords logs) (mkMap logs 0) k i r0 hk huniq hr0
      rw [hget] at hfin
      obtain rfl : r = _ := Option.some.inj hfin
      apply absurd _ hne
      show lastReqIdx logs 0 r0.request_id = some i
      rw [hid0]
      exact hlast
    · have hunt : (pass2 ed logs (mkRecords logs) (mkMap logs 0)).get? i =
          (mkRecords logs).get? i := by
        apply pass2_untouched
        intro id hdo hmem hli
        exact hex ⟨id, hli⟩
      rw [hunt] at hget
      exact mkRecords_sets_cookies logs i r hget

/-- C3 amended, witnessed: on the duplicate-id log, the record of the
first initiated event keeps an empty cookie list (the id map points past
it). -/
theorem C3_amended_witness :
    (mkRecord "1" "https://a.example/x" scriptInit 1).sets_cookies = [] :=
  (C3_amended_builder edDemo dupLogs (get_network_requests edDemo dupLogs) rfl).2.2 0
    (mkRecord "1" "https://a.example/x" scriptInit 1) (by rfl) (by decide)

end Cod
